import Mathlib

/-!
Verification of the a11y accessibility-audit tool's result-normalization and
reporting pipeline, shallowly embedded from the JavaScript source
(`src/index.js`, the pa11y runner script, and `config.js`).

Machine integers do not occur: all counts are small natural numbers in the
source.  Fallible collaborators (the browser/engine runner) are modelled as
functions returning `Except`.
-/

/-- JavaScript `a || b` for an optional string `a`: `null`/`undefined` and the
empty string are falsy, so they fall through to the default. -/
def jsOr (o : Option String) (d : String) : String :=
  match o with
  | none => d
  | some s => if s = "" then d else s

/-- Helper for JavaScript `String.prototype.includes`: does `pat` occur as a
contiguous run anywhere in `s` (char-list form)?  `''.includes(p)` is true
exactly when `p` is empty. -/
def strContainsAux (pat : List Char) : List Char → Bool
  | [] => pat.isEmpty
  | c :: t => pat.isPrefixOf (c :: t) || strContainsAux pat t

/-- JavaScript `s.includes(pat)`. -/
def jsIncludes (s pat : String) : Bool :=
  strContainsAux pat.data s.data

/-- Spec-level containment: `pat` occurs contiguously inside `s`. -/
def IsSubstrOf (pat s : List Char) : Prop :=
  ∃ l r, s = l ++ (pat ++ r)

/-- JavaScript `s.padEnd(n)`: pad with spaces on the right up to length `n`
(no-op when `s` is already at least that long). -/
def padEnd (s : String) (n : Nat) : String :=
  s ++ String.mk (List.replicate (n - s.length) ' ')

/-- JavaScript `Array.prototype.join(', ')`. -/
def joinComma (l : List String) : String :=
  String.intercalate ", " l

/-- One affected element of an axe rule group (`violation.nodes[i]` /
`check.nodes[i]` in `src/index.js`). -/
structure AxeNode where
  html : String
  failureSummary : Option String
  deriving DecidableEq

/-- One axe rule group (an entry of `results.violations` or
`results.incomplete`).  Fields the source guards with `|| ''` or that axe may
omit are optional. -/
structure AxeRuleGroup where
  id : Option String
  impact : Option String
  description : String
  help : Option String
  helpUrl : Option String
  tags : List String
  nodes : List AxeNode
  deriving DecidableEq

/-- The raw axe-core result consumed by the normalization code in
`src/index.js` (`results.violations` / `results.incomplete` /
`results.passes`). -/
structure AxeResults where
  violations : List AxeRuleGroup
  incomplete : List AxeRuleGroup
  passes : List AxeRuleGroup
  deriving DecidableEq

/-- The `output` section of `config.js`. -/
structure OutputConfig where
  directory : String
  includePassingTests : Bool
  includeIncompleteTests : Bool
  deriving DecidableEq

/-- The concrete `output` object of the repository's `config.js`:
`{ directory: 'results', includePassingTests: false,
includeIncompleteTests: true }`. -/
def configOutput : OutputConfig :=
  { directory := "results", includePassingTests := false,
    includeIncompleteTests := true }

/-- The WCAG tag filter of `src/index.js`:
`violation.tags.filter((tag) => tag.includes('wcag'))`. -/
def wcagFilter (tags : List String) : List String :=
  tags.filter (fun t => jsIncludes t "wcag")

/-- Modelled from the spec: compliance tags extracted by filtering the rule's
tag set to those that match the compliance-tag naming convention by a LEADING
match (the tag begins with `wcag`), as §4.4 of the spec words it.  Used only
to compare against the source's `wcagFilter`. -/
def specLeadingWcagTags (tags : List String) : List String :=
  tags.filter (fun t => "wcag".data.isPrefixOf t.data)

/-- One row of the CSV data built in `src/index.js` (`csvData.push({...})`).
Field types mirror the exact JavaScript values: fields copied raw from an
optional source stay optional, fields built with `|| ''` or literals are
plain strings. -/
structure CsvRow where
  type : String
  impact : Option String
  description : String
  help : Option String
  helpUrl : Option String
  id : Option String
  wcag : String
  element : String
  failure : String
  deriving DecidableEq

/-- The violation row pushed for each `(violation, node)` pair in
`src/index.js` lines 161-173.  Note `impact: violation.impact` is copied raw,
with no `|| 'unknown'` fallback. -/
def violationRow (v : AxeRuleGroup) (node : AxeNode) : CsvRow :=
  { type := "Violation"
    impact := v.impact
    description := v.description
    help := v.help
    helpUrl := v.helpUrl
    id := v.id
    wcag := joinComma (wcagFilter v.tags)
    element := node.html
    failure := jsOr node.failureSummary "" }

/-- The needs-review row pushed for each `(check, node)` pair in
`src/index.js` lines 182-194: `impact: check.impact || 'unknown'`,
`help: check.help || ''`, etc. -/
def incompleteRow (c : AxeRuleGroup) (node : AxeNode) : CsvRow :=
  { type := "Needs Review"
    impact := some (jsOr c.impact "unknown")
    description := c.description
    help := some (jsOr c.help "")
    helpUrl := some (jsOr c.helpUrl "")
    id := some (jsOr c.id "")
    wcag := joinComma (wcagFilter c.tags)
    element := node.html
    failure := jsOr node.failureSummary "" }

/-- Fan-out of violation groups: one row per `(group, node)` pair, in engine
order (`results.violations.forEach` / `violation.nodes.forEach`). -/
def violationRows (gs : List AxeRuleGroup) : List CsvRow :=
  gs.flatMap (fun v => v.nodes.map (violationRow v))

/-- Fan-out of incomplete groups: one row per `(group, node)` pair. -/
def incompleteRows (gs : List AxeRuleGroup) : List CsvRow :=
  gs.flatMap (fun c => c.nodes.map (incompleteRow c))

/-- The complete `csvData` array of `src/index.js` lines 153-196: violations
always, incomplete checks only when `config.output.includeIncompleteTests`.
Passes are never pushed, and `includePassingTests` is never read. -/
def csvData (cfg : OutputConfig) (r : AxeResults) : List CsvRow :=
  violationRows r.violations ++
    (if cfg.includeIncompleteTests then incompleteRows r.incomplete else [])

/-- The `violationsByCategory` accumulator record (keys `critical`, `serious`). -/
structure SeverityCounts where
  critical : Nat
  serious : Nat
  deriving DecidableEq

/-- One step of the `results.violations.forEach` counting loop of
`src/index.js` lines 108-113: increment a bucket only when
`violationsByCategory.hasOwnProperty(violation.impact)`, i.e. only for
impacts `critical` and `serious`; one increment per GROUP, not per node. -/
def bumpCategory (acc : SeverityCounts) (v : AxeRuleGroup) : SeverityCounts :=
  if v.impact = some "critical" then { acc with critical := acc.critical + 1 }
  else if v.impact = some "serious" then { acc with serious := acc.serious + 1 }
  else acc

/-- Function `violationsByCategory` of `src/index.js` lines 102-113. -/
def violationsByCategory (vs : List AxeRuleGroup) : SeverityCounts :=
  vs.foldl bumpCategory { critical := 0, serious := 0 }

/-- Sum of affected-element counts across a list of rule groups (the
spec's fan-out quantity). -/
def sumNodes (gs : List AxeRuleGroup) : Nat :=
  (gs.map (fun g => g.nodes.length)).sum

/-- The CSV header configured in `src/index.js` lines 140-150, as
`(id, title)` pairs in written order. -/
def axeCsvHeader : List (String × String) :=
  [("type", "Type"), ("impact", "Impact"), ("description", "Description"),
   ("help", "Help Text"), ("helpUrl", "Help URL"), ("id", "Rule ID"),
   ("wcag", "WCAG"), ("element", "Element"), ("failure", "Failure Summary")]

/-- The CSV header configured in the pa11y runner script, as `(id, title)`
pairs in written order. -/
def pa11yCsvHeader : List (String × String) :=
  [("type", "Type"), ("code", "Code"), ("message", "Message"),
   ("context", "Context"), ("selector", "Selector"), ("runner", "Runner")]

/-- Modelled from the spec: the header titles the spec claims for the fixed
CSV schema (§4.3).  Used only to compare with the source's headers. -/
def specClaimedHeaderTitles : List String :=
  ["Type", "Impact", "Description", "Help Text", "Help URL", "Rule ID",
   "Tags", "Element", "Failure Summary"]

/-- Modelled from the spec: how the external csv-writer renders one field of
a record — an absent (`null`/`undefined`) value becomes the empty string. -/
def cellOf (o : Option String) : String :=
  o.getD ""

/-- The cells of one axe CSV data row, in the column order fixed by
`axeCsvHeader`. -/
def rowCells (r : CsvRow) : List String :=
  [r.type, cellOf r.impact, r.description, cellOf r.help, cellOf r.helpUrl,
   cellOf r.id, r.wcag, r.element, r.failure]

/-- Modelled from the spec: the external csv-writer collaborator
(`createObjectCsvWriter` + `writeRecords`) writes the header-title row
followed by one row per record, in record order. -/
def axeCsvFile (cfg : OutputConfig) (r : AxeResults) : List (List String) :=
  (axeCsvHeader.map Prod.snd) :: (csvData cfg r).map rowCells

/-- One pa11y issue (`results.issues[i]` of the pa11y runner script). -/
structure Pa11yIssue where
  type : String
  code : String
  message : String
  context : String
  selector : String
  runner : String
  deriving DecidableEq

/-- The cells of one pa11y CSV data row (the issue objects are passed to
`writeRecords` directly; columns follow `pa11yCsvHeader`). -/
def pa11yRowCells (i : Pa11yIssue) : List String :=
  [i.type, i.code, i.message, i.context, i.selector, i.runner]

/-- Modelled from the spec: the pa11y CSV file as written by the csv-writer
collaborator — header-title row, then one row per issue in order. -/
def pa11yCsvFile (issues : List Pa11yIssue) : List (List String) :=
  (pa11yCsvHeader.map Prod.snd) :: issues.map pa11yRowCells

/-- The per-URL result object of `checkAccessibility` in `src/index.js`:
either the success shape `{url, violations, passes, incomplete,
violationsByCategory, ...}` or the failure shape `{url, error}` returned from
the `catch` block. -/
inductive CheckOutcome where
  | ok (url : String) (violations passes incomplete : Nat)
      (cats : SeverityCounts)
  | failed (url : String) (errMsg : String)
  deriving DecidableEq

/-- Function `checkAccessibility` of `src/index.js`, with the external
browser/axe collaborator abstracted as `run : url → Except errMsg rawResult`.
An exception from the collaborator is caught by the function's own
`catch` and converted into the `{url, error}` shape. -/
def checkAccessibility (run : String → Except String AxeResults)
    (url : String) : CheckOutcome :=
  match run url with
  | .ok results =>
      .ok url results.violations.length results.passes.length
        results.incomplete.length (violationsByCategory results.violations)
  | .error msg => .failed url msg

/-- The URL loop of `runAccessibilityChecks` in `src/index.js` lines
342-346: strictly sequential, one `CheckOutcome` pushed per URL. -/
def runAccessibilityChecks (run : String → Except String AxeResults)
    (urls : List String) : List CheckOutcome :=
  urls.map (checkAccessibility run)

/-- Console colors applied via chalk; `plain` marks unstyled text. -/
inductive ConsoleColor where
  | plain
  | red
  | green
  | yellow
  | blue
  | gray
  deriving DecidableEq

/-- One styled fragment of a console summary row. -/
structure Styled where
  color : ConsoleColor
  text : String
  deriving DecidableEq

/-- One row of the axe cross-run summary table (`summary.forEach` in
`src/index.js` lines 363-394): an errored outcome renders as a red `Error`
status with `N/A` cells; a success renders its counts with threshold-based
colors. -/
def axeSummaryRow : CheckOutcome → List Styled
  | .failed url _ =>
      [{ color := .plain, text := padEnd url 40 },
       { color := .red, text := padEnd "Error" 12 },
       { color := .plain, text := padEnd "N/A" 12 },
       { color := .plain, text := padEnd "N/A" 12 },
       { color := .plain, text := padEnd "N/A" 12 },
       { color := .plain, text := "N/A" }]
  | .ok url violations _passes incomplete cats =>
      [{ color := .plain, text := padEnd url 40 },
       { color := .green, text := padEnd "Success" 12 },
       { color := if violations > 0 then .red else .green,
         text := padEnd (toString violations) 12 },
       { color := if cats.critical > 0 then .red else .green,
         text := padEnd (toString cats.critical) 12 },
       { color := if cats.serious > 0 then .yellow else .green,
         text := padEnd (toString cats.serious) 12 },
       { color := .yellow, text := toString incomplete }]

/-- The per-URL result object of `checkAccessibilityWithPa11y`: the catch
branch returns all-zero counts WITH `error` set. -/
structure Pa11yOutcome where
  url : String
  errors : Nat
  warnings : Nat
  notices : Nat
  total : Nat
  error : Option String
  deriving DecidableEq

/-- Function `checkAccessibilityWithPa11y`, with the pa11y collaborator abstracted as
`run : url → Except errMsg issues`.  On failure the catch block returns
`{url, errors: 0, warnings: 0, notices: 0, total: 0, error}`. -/
def checkPa11y (run : String → Except String (List Pa11yIssue))
    (url : String) : Pa11yOutcome :=
  match run url with
  | .ok issues =>
      { url := url
        errors := issues.countP (fun i => i.type == "error")
        warnings := issues.countP (fun i => i.type == "warning")
        notices := issues.countP (fun i => i.type == "notice")
        total := issues.length
        error := none }
  | .error msg =>
      { url := url, errors := 0, warnings := 0, notices := 0, total := 0,
        error := some msg }

/-- JavaScript `s.substring(0, n)`: the first `n` characters of `s`. -/
def strTake (s : String) (n : Nat) : String :=
  String.mk (s.data.take n)

/-- One row of the pa11y cross-run summary table (`results.forEach` in the
pa11y runner): the row reads only the URL and the four counts — the `error`
field is never consulted. -/
def pa11ySummaryRow (r : Pa11yOutcome) : List Styled :=
  [{ color := .plain, text := strTake (padEnd r.url 40) 40 },
   { color := if r.total > 0 then .red else .green,
     text := padEnd (toString r.total) 12 },
   { color := if r.errors > 0 then .red else .green,
     text := padEnd (toString r.errors) 12 },
   { color := if r.warnings > 0 then .yellow else .green,
     text := padEnd (toString r.warnings) 12 },
   { color := if r.notices > 0 then .blue else .green,
     text := toString r.notices }]

/-- The entry dispatch of `src/index.js` lines 413-430: a CLI URL (argv
length > 2) restricts the run to that URL; otherwise the configured list is
used; in both cases the run is followed by `process.exit(0)` regardless of
what was found; only a missing URL list exits 1 without running.  Returns
(summary, exit code). -/
def axeEntry (argv configUrls : List String)
    (run : String → Except String AxeResults) : List CheckOutcome × Nat :=
  if 2 < argv.length then
    (runAccessibilityChecks run [argv.getD 2 ""], 0)
  else if 0 < configUrls.length then
    (runAccessibilityChecks run configUrls, 0)
  else
    ([], 1)

/-- The URL-list resolution of `runPa11yChecks`:
`process.argv.length > 2 ? [process.argv[2]] : config.urls`. -/
def pa11yUrls (argv configUrls : List String) : List String :=
  if 2 < argv.length then [argv.getD 2 ""] else configUrls

/-- The `totalErrors` accumulator of the pa11y summary loop. -/
def pa11yTotalErrors (run : String → Except String (List Pa11yIssue))
    (urls : List String) : Nat :=
  ((urls.map (checkPa11y run)).map (fun o => o.errors)).sum

/-- The exit behaviour of `runPa11yChecks`: exit 1 when the resolved URL list
is empty, exit 1 after the run when `totalErrors > 0`, otherwise fall off the
end (exit 0). -/
def pa11yEntry (argv configUrls : List String)
    (run : String → Except String (List Pa11yIssue)) : Nat :=
  let urls := pa11yUrls argv configUrls
  if urls.length = 0 then 1
  else if 0 < pa11yTotalErrors run urls then 1 else 0

/-- Modelled from the spec: the run-level accumulated Critical-bucket count
across all CheckOutcomes (the quantity the spec's exit-status sentence is
about; the axe source never computes it). -/
def criticalTotal (outcomes : List CheckOutcome) : Nat :=
  (outcomes.map (fun o =>
    match o with
    | .ok _ _ _ _ cats => cats.critical
    | .failed _ _ => 0)).sum

/-- The spec's C2 scenario: violation group A (impact critical, 2 affected
elements) and group B (impact serious, 1 affected element). -/
def scenarioViolations : List AxeRuleGroup :=
  [{ id := some "ruleA", impact := some "critical", description := "descA",
     help := some "helpA", helpUrl := some "urlA", tags := ["wcag2a"],
     nodes := [{ html := "<a1>", failureSummary := none },
               { html := "<a2>", failureSummary := none }] },
   { id := some "ruleB", impact := some "serious", description := "descB",
     help := some "helpB", helpUrl := some "urlB", tags := ["wcag2aa"],
     nodes := [{ html := "<b1>", failureSummary := none }] }]

/-- The C2 scenario as a full raw result (0 incomplete groups). -/
def scenarioResults : AxeResults :=
  { violations := scenarioViolations, incomplete := [], passes := [] }

/-- A raw result with one critical violation on one element, used as a
concrete run outcome for the exit-status counterexample. -/
def criticalRawResult : AxeResults :=
  { violations :=
      [{ id := some "rule1", impact := some "critical", description := "d",
         help := some "h", helpUrl := some "u", tags := ["wcag2a"],
         nodes := [{ html := "<div>", failureSummary := none }] }],
    incomplete := [], passes := [] }

/-- A collaborator that reports `criticalRawResult` for every URL. -/
def criticalRun : String → Except String AxeResults :=
  fun _ => .ok criticalRawResult

/-- A collaborator that throws on the URL `"bad"` and reports an empty result
elsewhere; used to witness the orchestrator's error containment. -/
def flakyRun : String → Except String AxeResults :=
  fun u =>
    if u = "bad" then .error "net down"
    else .ok { violations := [], incomplete := [], passes := [] }

/-- A node used by several concrete examples. -/
def aNode : AxeNode :=
  { html := "<a>", failureSummary := none }

/-- A violation rule group whose `impact` is absent (`null`); exercises the
missing-impact behaviour of the normalizer. -/
def nullImpactViolation : AxeRuleGroup :=
  { id := some "r", impact := none, description := "d", help := none,
    helpUrl := none, tags := [], nodes := [aNode] }

/-- A rule group carrying a tag that contains `wcag` without beginning with
it; distinguishes the substring filter from a leading-match filter. -/
def oddTagGroup : AxeRuleGroup :=
  { id := some "r", impact := some "critical", description := "d",
    help := none, helpUrl := none, tags := ["x-wcag"], nodes := [aNode] }

/-- The pa11y catch-branch outcome for a failed URL: zero counts with
`error` set. -/
def pa11yFailedSample : Pa11yOutcome :=
  { url := "https://x.com", errors := 0, warnings := 0, notices := 0,
    total := 0, error := some "net down" }

/-- A genuinely clean pa11y outcome for the same URL: zero counts, no
error. -/
def pa11yCleanSample : Pa11yOutcome :=
  { url := "https://x.com", errors := 0, warnings := 0, notices := 0,
    total := 0, error := none }

/-- The empty raw axe result. -/
def emptyAxeResults : AxeResults :=
  { violations := [], incomplete := [], passes := [] }

theorem isPrefixOf_iff_append (l : List Char) :
    ∀ s : List Char, l.isPrefixOf s = true ↔ ∃ r, s = l ++ r := by
  induction l with
  | nil =>
    intro s
    simp [List.isPrefixOf]
  | cons a as ih =>
    intro s
    cases s with
    | nil =>
      simp [List.isPrefixOf]
    | cons b bs =>
      simp only [List.isPrefixOf, Bool.and_eq_true, beq_iff_eq, ih bs,
        List.cons_append, List.cons.injEq]
      constructor
      · rintro ⟨rfl, r, rfl⟩
        exact ⟨r, rfl, rfl⟩
      · rintro ⟨r, rfl, rfl⟩
        exact ⟨rfl, r, rfl⟩

theorem substr_nil_iff (pat : List Char) : IsSubstrOf pat [] ↔ pat = [] := by
  constructor
  · rintro ⟨l, r, h⟩
    rcases List.append_eq_nil.mp h.symm with ⟨rfl, h2⟩
    rcases List.append_eq_nil.mp h2 with ⟨rfl, rfl⟩
    rfl
  · rintro rfl
    exact ⟨[], [], rfl⟩

theorem substr_cons_iff (pat : List Char) (c : Char) (t : List Char) :
    IsSubstrOf pat (c :: t) ↔ (∃ r, c :: t = pat ++ r) ∨ IsSubstrOf pat t := by
  constructor
  · rintro ⟨l, r, h⟩
    cases l with
    | nil =>
      exact Or.inl ⟨r, by simpa using h⟩
    | cons x xs =>
      simp only [List.cons_append] at h
      injection h with h1 h2
      exact Or.inr ⟨xs, r, h2⟩
  · rintro (⟨r, h⟩ | ⟨l, r, h⟩)
    · exact ⟨[], r, by simpa using h⟩
    · exact ⟨c :: l, r, by simp [h]⟩

theorem strContainsAux_iff (pat : List Char) :
    ∀ s : List Char, strContainsAux pat s = true ↔ IsSubstrOf pat s := by
  intro s
  induction s with
  | nil =>
    rw [substr_nil_iff]
    simp [strContainsAux, List.isEmpty_iff]
  | cons c t ih =>
    rw [substr_cons_iff]
    simp only [strContainsAux, Bool.or_eq_true, ih, isPrefixOf_iff_append]

theorem countP_map_const_true {β γ : Type} (g : β → γ) (p : γ → Bool)
    (h : ∀ b, p (g b) = true) :
    ∀ l : List β, (l.map g).countP p = l.length := by
  intro l
  induction l with
  | nil => rfl
  | cons b bs ih => simp [List.countP_cons, h, ih]

theorem countP_map_const_false {β γ : Type} (g : β → γ) (p : γ → Bool)
    (h : ∀ b, p (g b) = false) :
    ∀ l : List β, (l.map g).countP p = 0 := by
  intro l
  induction l with
  | nil => rfl
  | cons b bs ih => simp [List.countP_cons, h, ih]

theorem all_map_const {β γ : Type} (g : β → γ) (p : γ → Bool)
    (h : ∀ b, p (g b) = true) :
    ∀ l : List β, (l.map g).all p = true := by
  intro l
  induction l with
  | nil => rfl
  | cons b bs ih => simp [List.all_cons, h, ih]

theorem countP_rows_eq_sumNodes (mk : AxeRuleGroup → AxeNode → CsvRow)
    (p : CsvRow → Bool) (h : ∀ g n, p (mk g n) = true) :
    ∀ gs : List AxeRuleGroup,
      ((gs.flatMap (fun v => v.nodes.map (mk v))).countP p) = sumNodes gs := by
  intro gs
  induction gs with
  | nil => rfl
  | cons a as ih =>
    simp only [List.flatMap_cons, List.countP_append, sumNodes, List.map_cons,
      List.sum_cons] at *
    rw [countP_map_const_true (mk a) p (h a), ih]

theorem countP_rows_eq_zero (mk : AxeRuleGroup → AxeNode → CsvRow)
    (p : CsvRow → Bool) (h : ∀ g n, p (mk g n) = false) :
    ∀ gs : List AxeRuleGroup,
      ((gs.flatMap (fun v => v.nodes.map (mk v))).countP p) = 0 := by
  intro gs
  induction gs with
  | nil => rfl
  | cons a as ih =>
    simp only [List.flatMap_cons, List.countP_append, ih]
    rw [countP_map_const_false (mk a) p (h a)]

theorem all_rows_const (mk : AxeRuleGroup → AxeNode → CsvRow)
    (p : CsvRow → Bool) (h : ∀ g n, p (mk g n) = true) :
    ∀ gs : List AxeRuleGroup,
      ((gs.flatMap (fun v => v.nodes.map (mk v))).all p) = true := by
  intro gs
  induction gs with
  | nil => rfl
  | cons a as ih =>
    simp only [List.flatMap_cons, List.all_append, ih]
    simp [all_map_const (mk a) p (h a)]

theorem foldl_bumpCategory (gs : List AxeRuleGroup) :
    ∀ acc : SeverityCounts,
      (gs.foldl bumpCategory acc).critical
          = acc.critical + gs.countP (fun g => g.impact == some "critical")
        ∧ (gs.foldl bumpCategory acc).serious
          = acc.serious + gs.countP (fun g => g.impact == some "serious") := by
  induction gs with
  | nil =>
    intro acc
    simp
  | cons g gs ih =>
    intro acc
    simp only [List.foldl_cons, List.countP_cons]
    rcases ih (bumpCategory acc g) with ⟨h1, h2⟩
    rw [h1, h2]
    unfold bumpCategory
    by_cases hc : g.impact = some "critical"
    · have hs : (g.impact == some "serious") = false := by
        rw [hc]; decide
      simp [hc, hs]
      omega
    · by_cases hs : g.impact = some "serious"
      · have hc2 : (g.impact == some "critical") = false := by
          rw [hs]; decide
        simp [hc, hs, hc2]
        omega
      · have hc2 : (g.impact == some "critical") = false := by
          simpa using hc
        have hs2 : (g.impact == some "serious") = false := by
          simpa using hs
        simp [hc, hs, hc2, hs2]

theorem countP_or_of_disjoint {α : Type} (p q : α → Bool)
    (h : ∀ x, p x = true → q x = false) :
    ∀ l : List α, l.countP (fun x => p x || q x) = l.countP p + l.countP q := by
  intro l
  induction l with
  | nil => rfl
  | cons a l ih =>
    simp only [List.countP_cons, ih]
    by_cases hp : p a = true
    · simp [hp, h a hp]
      omega
    · simp only [Bool.not_eq_true] at hp
      by_cases hq : q a = true
      · simp [hp, hq]
        omega
      · simp only [Bool.not_eq_true] at hq
        simp [hp, hq]

/-- Claim C2 (counterexample): on the spec's own scenario — violation group A
(impact critical, 2 elements) and group B (impact serious, 1 element), no
incomplete groups — the source's `violationsByCategory` yields
`{critical: 1, serious: 1}` (one count per GROUP), not the claimed
`{Critical: 2, Serious: 1}`, and its values sum to 2 while the normalized
data contains 3 Violation-type rows. -/
theorem c2_counterexample :
    violationsByCategory scenarioViolations = { critical := 1, serious := 1 }
    ∧ ((csvData configOutput scenarioResults).countP
        (fun row => row.type == "Violation")) = 3
    ∧ decide (violationsByCategory scenarioViolations
        = { critical := 2, serious := 1 }) = false
    ∧ decide ((violationsByCategory scenarioViolations).critical
        + (violationsByCategory scenarioViolations).serious = 3) = false := by
  decide

/-- Claim C2 (amended): `countsBySeverity` counts one per violation
rule-group, not one per Violation-type Finding: the `critical` and `serious`
buckets equal the number of violation GROUPS with that impact, so the values
sum to the number of violation groups whose impact is critical or serious
(element fan-out is not reflected). -/
theorem c2_category_counts_amended :
    ∀ gs : List AxeRuleGroup,
      (violationsByCategory gs).critical
          = gs.countP (fun g => g.impact == some "critical")
      ∧ (violationsByCategory gs).serious
          = gs.countP (fun g => g.impact == some "serious")
      ∧ (violationsByCategory gs).critical + (violationsByCategory gs).serious
          = gs.countP (fun g => g.impact == some "critical"
              || g.impact == some "serious") := by
  intro gs
  have h := foldl_bumpCategory gs { critical := 0, serious := 0 }
  simp only [Nat.zero_add] at h
  rcases h with ⟨h1, h2⟩
  unfold violationsByCategory
  refine ⟨h1, h2, ?_⟩
  rw [h1, h2]
  rw [countP_or_of_disjoint (fun g => g.impact == some "critical")
    (fun g => g.impact == some "serious") ?_ gs]
  intro g hg
  simp only [beq_iff_eq] at hg ⊢
  rw [hg]
  decide

/-- Claim C3 (confirmed): with the repository's configuration
(`includeIncompleteTests: true`), the normalized row set contains exactly one
row per (rule group, affected element) pair: the number of Violation-type
rows equals the sum of element counts over violation groups, and the number
of Needs-Review-type rows equals the sum of element counts over incomplete
groups. -/
theorem c3_fanout_law :
    ∀ r : AxeResults,
      ((csvData configOutput r).countP (fun row => row.type == "Violation"))
          = sumNodes r.violations
      ∧ ((csvData configOutput r).countP
          (fun row => row.type == "Needs Review")) = sumNodes r.incomplete := by
  intro r
  have hinc : configOutput.includeIncompleteTests = true := rfl
  simp only [csvData, hinc, if_pos, List.countP_append, violationRows,
    incompleteRows]
  constructor
  · rw [countP_rows_eq_sumNodes violationRow _ (fun g n => rfl) r.violations,
      countP_rows_eq_zero incompleteRow _ (fun g n => rfl) r.incomplete]
    omega
  · rw [countP_rows_eq_zero violationRow _ (fun g n => rfl) r.violations,
      countP_rows_eq_sumNodes incompleteRow _ (fun g n => rfl) r.incomplete]
    omega

/-- Claim C4 (counterexample): a VIOLATION rule group with `impact` absent
does not normalize to `unknown` — the source copies `violation.impact` raw,
so the row's impact stays absent (rendered as an empty cell), refuting the
claim that both group kinds map a missing impact to Unknown. -/
theorem c4_counterexample :
    (violationRow nullImpactViolation aNode).impact = none
    ∧ decide ((violationRow nullImpactViolation aNode).impact
        = some "unknown") = false := by
  decide

/-- Claim C4 (amended): a missing impact never throws, and maps to
`unknown` only on the incomplete-check path (`check.impact || 'unknown'`);
on the violation path the absent impact is passed through unchanged. -/
theorem c4_missing_impact_amended :
    ∀ (g : AxeRuleGroup) (n : AxeNode),
      g.impact = none →
        (incompleteRow g n).impact = some "unknown"
        ∧ (violationRow g n).impact = none := by
  intro g n h
  simp [incompleteRow, violationRow, jsOr, h]

/-- Witness for C4's amended theorem at a concrete rule group with an absent
impact. -/
theorem c4_missing_impact_amended_witness :
    nullImpactViolation.impact = none
    ∧ ((incompleteRow nullImpactViolation aNode).impact = some "unknown"
       ∧ (violationRow nullImpactViolation aNode).impact = none) :=
  ⟨rfl, c4_missing_impact_amended nullImpactViolation aNode rfl⟩

/-- Claim C5 (counterexample): the source filters tags with
`tag.includes('wcag')` — substring containment, not a leading match: the tag
`x-wcag` is kept and attached to the emitted Finding, while a leading-match
filter would drop it, so the attached tags are not "exactly the members
matching by prefix". -/
theorem c5_counterexample :
    wcagFilter ["x-wcag"] = ["x-wcag"]
    ∧ specLeadingWcagTags ["x-wcag"] = []
    ∧ (violationRow oddTagGroup aNode).wcag = "x-wcag"
    ∧ decide ((violationRow oddTagGroup aNode).wcag
        = joinComma (specLeadingWcagTags oddTagGroup.tags)) = false := by
  decide

/-- Claim C5 (amended): the compliance tags attached to an emitted row are
exactly the members of the rule's tag set that CONTAIN the substring `wcag`
anywhere (JavaScript `includes`), joined with `", "`; non-matching tags are
dropped without error. -/
theorem c5_tag_filter_amended :
    ∀ (v : AxeRuleGroup) (n : AxeNode),
      (violationRow v n).wcag = joinComma (wcagFilter v.tags)
      ∧ (incompleteRow v n).wcag = joinComma (wcagFilter v.tags)
      ∧ ∀ tag : String, tag ∈ wcagFilter v.tags
          ↔ tag ∈ v.tags ∧ IsSubstrOf "wcag".data tag.data := by
  intro v n
  refine ⟨rfl, rfl, ?_⟩
  intro tag
  simp [wcagFilter, List.mem_filter, jsIncludes, strContainsAux_iff]

/-- Claim C6 (counterexample): neither engine path writes the header the
claim fixes — the axe path titles the tags column `WCAG` (not `Tags`), and
the pa11y path writes a completely different six-column header
(Type, Code, Message, Context, Selector, Runner). -/
theorem c6_counterexample :
    decide ((axeCsvFile configOutput emptyAxeResults).head?
        = some specClaimedHeaderTitles) = false
    ∧ decide ((pa11yCsvFile []).head? = some specClaimedHeaderTitles) = false
    ∧ (axeCsvFile configOutput emptyAxeResults).head?
        = some (axeCsvHeader.map Prod.snd)
    ∧ (pa11yCsvFile []).head? = some (pa11yCsvHeader.map Prod.snd) := by
  decide

/-- Claim C6 (amended): each engine path writes its own fixed header — the
axe path `Type, Impact, Description, Help Text, Help URL, Rule ID, WCAG,
Element, Failure Summary`, the pa11y path `Type, Code, Message, Context,
Selector, Runner`; all columns are always present (absent values rendered as
the empty string by the writer model), and a file written from N normalized
rows holds exactly N data rows plus 1 header row, in the original order. -/
theorem c6_csv_schema_amended :
    ∀ (cfg : OutputConfig) (r : AxeResults) (issues : List Pa11yIssue),
      (axeCsvFile cfg r).length = (csvData cfg r).length + 1
      ∧ (axeCsvFile cfg r).head? = some (axeCsvHeader.map Prod.snd)
      ∧ (axeCsvFile cfg r).all (fun row => row.length == 9) = true
      ∧ axeCsvFile cfg r
          = (axeCsvHeader.map Prod.snd) :: (csvData cfg r).map rowCells
      ∧ (pa11yCsvFile issues).length = issues.length + 1
      ∧ (pa11yCsvFile issues).head? = some (pa11yCsvHeader.map Prod.snd)
      ∧ (pa11yCsvFile issues).all (fun row => row.length == 6) = true := by
  intro cfg r issues
  refine ⟨by simp [axeCsvFile], rfl, ?_, rfl, by simp [pa11yCsvFile], rfl, ?_⟩
  · simp only [axeCsvFile, List.all_cons, Bool.and_eq_true]
    exact ⟨rfl, all_map_const rowCells _ (fun b => rfl) (csvData cfg r)⟩
  · simp only [pa11yCsvFile, List.all_cons, Bool.and_eq_true]
    exact ⟨rfl, all_map_const pa11yRowCells _ (fun b => rfl) issues⟩

/-- Claim C7 (counterexample): in the pa11y path a failed CheckOutcome (the
catch branch returns zero counts with `error` set) renders a summary row
IDENTICAL to that of a clean outcome with zero issues for the same URL — the
failure is indistinguishable from "zero issues found". -/
theorem c7_counterexample :
    pa11ySummaryRow pa11yFailedSample = pa11ySummaryRow pa11yCleanSample
    ∧ pa11yFailedSample.error = some "net down"
    ∧ pa11yCleanSample.error = none := by
  decide

/-- Claim C7 (amended): the claim holds on the axe path — an errored outcome
renders a red `Error` status with `N/A` placeholder cells, never equal to a
success row — but the pa11y summary never reads the `error` field, so there a
failed outcome renders exactly like one with zero counts. -/
theorem c7_failed_row_amended :
    ∀ (url msg : String) (v p i : Nat) (cats : SeverityCounts)
      (r : Pa11yOutcome),
      (axeSummaryRow (.failed url msg)).getD 1 { color := .plain, text := "" }
          = { color := .red, text := padEnd "Error" 12 }
      ∧ (axeSummaryRow (.ok url v p i cats)).getD 1
            { color := .plain, text := "" }
          = { color := .green, text := padEnd "Success" 12 }
      ∧ decide (axeSummaryRow (.failed url msg)
          = axeSummaryRow (.ok url v p i cats)) = false
      ∧ pa11ySummaryRow r = pa11ySummaryRow { r with error := none } := by
  intro url msg v p i cats r
  refine ⟨rfl, rfl, ?_, rfl⟩
  rw [decide_eq_false_iff_not]
  intro h
  simp [axeSummaryRow] at h

/-- Claim C1 (counterexample): in the axe path, a run over a non-empty URL
list whose only URL yields one critical violation still exits 0 — the entry
dispatch runs `process.exit(0)` unconditionally after the run — while the
accumulated Critical-bucket count is 1 > 0, so the exit status is not the
claimed non-zero. -/
theorem c1_counterexample :
    (axeEntry ["node", "index.js"] ["https://a.com"] criticalRun).2 = 0
    ∧ criticalTotal
        (axeEntry ["node", "index.js"] ["https://a.com"] criticalRun).1
          = 1 := by
  decide

/-- Claim C1 (amended): exit codes are path-specific — the axe path exits 1
exactly when no CLI URL is given and the configured URL list is empty, and
0 otherwise regardless of what the run found (the run's results never reach
the exit decision); the pa11y path exits 1 exactly when the resolved URL list
is empty or the accumulated Error count over all outcomes is positive, and 0
otherwise. -/
theorem c1_exit_status_amended :
    ∀ (argv configUrls : List String)
      (ar ar2 : String → Except String AxeResults)
      (pr : String → Except String (List Pa11yIssue)),
      (axeEntry argv configUrls ar).2 = (axeEntry argv configUrls ar2).2
      ∧ ((axeEntry argv configUrls ar).2 = 1
          ↔ argv.length ≤ 2 ∧ configUrls.length = 0)
      ∧ (axeEntry argv configUrls ar).2 ≤ 1
      ∧ (pa11yEntry argv configUrls pr = 1
          ↔ (pa11yUrls argv configUrls).length = 0
            ∨ 0 < pa11yTotalErrors pr (pa11yUrls argv configUrls))
      ∧ pa11yEntry argv configUrls pr ≤ 1 := by
  intro argv configUrls ar ar2 pr
  have hax : ∀ f : String → Except String AxeResults,
      (axeEntry argv configUrls f).2
        = if 2 < argv.length then 0
          else if 0 < configUrls.length then 0 else 1 := by
    intro f
    unfold axeEntry
    split_ifs <;> rfl
  have hpa : pa11yEntry argv configUrls pr
      = if (pa11yUrls argv configUrls).length = 0 then 1
        else if 0 < pa11yTotalErrors pr (pa11yUrls argv configUrls) then 1
        else 0 := rfl
  rw [hax ar, hax ar2, hpa]
  have axIff : (if 2 < argv.length then 0
        else if 0 < configUrls.length then 0 else 1) = 1
      ↔ argv.length ≤ 2 ∧ configUrls.length = 0 := by
    by_cases h1 : 2 < argv.length
    · rw [if_pos h1]
      omega
    · rw [if_neg h1]
      by_cases h2 : 0 < configUrls.length
      · rw [if_pos h2]
        omega
      · rw [if_neg h2]
        omega
  have paIff : (if (pa11yUrls argv configUrls).length = 0 then 1
        else if 0 < pa11yTotalErrors pr (pa11yUrls argv configUrls) then 1
        else 0) = 1
      ↔ (pa11yUrls argv configUrls).length = 0
        ∨ 0 < pa11yTotalErrors pr (pa11yUrls argv configUrls) := by
    by_cases h1 : (pa11yUrls argv configUrls).length = 0
    · rw [if_pos h1]
      omega
    · rw [if_neg h1]
      by_cases h2 : 0 < pa11yTotalErrors pr (pa11yUrls argv configUrls)
      · rw [if_pos h2]
        omega
      · rw [if_neg h2]
        omega
  refine ⟨rfl, axIff, ?_, paIff, ?_⟩
  · split_ifs <;> omega
  · split_ifs <;> omega

/-- Claim C8 (confirmed): an exception from the external collaborator while
checking one URL is caught and converted into that URL's failed outcome
(`{url, error}`), and the loop still produces one outcome per remaining URL
— no per-URL failure aborts the run. -/
theorem c8_error_containment :
    ∀ (run : String → Except String AxeResults) (u : String)
      (us : List String) (msg : String),
      run u = .error msg →
        runAccessibilityChecks run (u :: us)
            = CheckOutcome.failed u msg :: runAccessibilityChecks run us
        ∧ (runAccessibilityChecks run (u :: us)).length = us.length + 1 := by
  intro run u us msg h
  constructor
  · simp [runAccessibilityChecks, checkAccessibility, h]
  · simp [runAccessibilityChecks]

/-- Witness for C8 at a concrete collaborator that throws on the first URL:
the failure is recorded and the second URL is still processed. -/
theorem c8_error_containment_witness :
    flakyRun "bad" = .error "net down"
    ∧ (runAccessibilityChecks flakyRun ["bad", "ok"]
          = CheckOutcome.failed "bad" "net down"
            :: runAccessibilityChecks flakyRun ["ok"]
       ∧ (runAccessibilityChecks flakyRun ["bad", "ok"]).length
          = ["ok"].length + 1) :=
  ⟨rfl, c8_error_containment flakyRun "bad" ["ok"] "net down" rfl⟩

/-- Claim C9 (confirmed): normalization is a pure function of the raw engine
result — two runs of the embedded normalizer on equal raw inputs produce
equal row sequences in equal order. -/
theorem c9_determinism :
    ∀ (cfg : OutputConfig) (r r2 : AxeResults),
      r = r2 → csvData cfg r = csvData cfg r2 := by
  intro cfg r r2 h
  rw [h]

/-- Witness for C9 at the concrete scenario input. -/
theorem c9_determinism_witness :
    scenarioResults = scenarioResults
    ∧ csvData configOutput scenarioResults
        = csvData configOutput scenarioResults :=
  ⟨rfl, c9_determinism configOutput scenarioResults scenarioResults rfl⟩

/-- Claim C10 (confirmed): the main audit path's CSV row set contains only
`Violation` rows and — only when `includeIncompleteTests` — `Needs Review`
rows; `Pass` rows are never produced, and the `includePassingTests` option is
never consulted: two configurations agreeing on `includeIncompleteTests`
yield identical row sets whatever their `includePassingTests` (or
`directory`) values. -/
theorem c10_row_types :
    ∀ (c c2 : OutputConfig) (r : AxeResults),
      c.includeIncompleteTests = c2.includeIncompleteTests →
        csvData c r = csvData c2 r
        ∧ (csvData c r).all
            (fun row => row.type == "Violation"
              || row.type == "Needs Review") = true
        ∧ (csvData { c with includeIncompleteTests := false } r).all
            (fun row => row.type == "Violation") = true := by
  intro c c2 r h
  refine ⟨?_, ?_, ?_⟩
  · simp only [csvData, h]
  · simp only [csvData, List.all_append, Bool.and_eq_true, violationRows,
      incompleteRows]
    constructor
    · exact all_rows_const violationRow _ (fun g n => rfl) r.violations
    · by_cases hc : c.includeIncompleteTests = true
      · rw [if_pos hc]
        exact all_rows_const incompleteRow _ (fun g n => rfl) r.incomplete
      · rw [if_neg hc]
        rfl
  · simp only [csvData, violationRows, if_neg]
    simp only [List.all_append, Bool.and_eq_true]
    constructor
    · exact all_rows_const violationRow _ (fun g n => rfl) r.violations
    · rfl

/-- Witness for C10 at two concrete configurations differing only in
`includePassingTests`, on the scenario input. -/
theorem c10_row_types_witness :
    configOutput.includeIncompleteTests
        = ({ configOutput with includePassingTests := true
           } : OutputConfig).includeIncompleteTests
    ∧ (csvData configOutput scenarioResults
          = csvData { configOutput with includePassingTests := true }
              scenarioResults
       ∧ (csvData configOutput scenarioResults).all
            (fun row => row.type == "Violation"
              || row.type == "Needs Review") = true
       ∧ (csvData { configOutput with includeIncompleteTests := false }
            scenarioResults).all
            (fun row => row.type == "Violation") = true) :=
  ⟨rfl, c10_row_types configOutput
    { configOutput with includePassingTests := true } scenarioResults rfl⟩
